import Mathlib

/-!
# Verification of the DeFindex dashboard data-fetch-and-normalize layer

Shallow embedding of the repository's API client (`src/services/api.js`),
the dashboard state transitions (`src/components/VaultDashboard.jsx`) and
the presentation formatters (`src/utils/formatters.js`).

JavaScript dynamic values are modelled by the inductive `JsVal`
(null / undefined / NaN / finite number / string); finite JS numbers are
modelled as rationals (`ℚ`), exact for all values the claims exercise.
Platform functions (`parseFloat`, `ToNumber`, `toFixed`) are embedded as
executable Lean functions over this model.
-/

namespace Dashboard

/-- A JavaScript value as the dashboard's data layer sees it:
`null`, `undefined`, the number `NaN`, a finite number, or a string. -/
inductive JsVal : Type where
  | null : JsVal
  | undef : JsVal
  | nan : JsVal
  | num : ℚ → JsVal
  | str : String → JsVal
deriving DecidableEq, Repr

/-- Numeric value of a list of decimal digit characters (most significant first). -/
def digitsVal (cs : List Char) : ℕ :=
  cs.foldl (fun a c => 10 * a + (c.toNat - 48)) 0

/-- Split a character list into its leading run of decimal digits and the rest. -/
def takeDigits (cs : List Char) : List Char × List Char :=
  (cs.takeWhile Char.isDigit, cs.dropWhile Char.isDigit)

/-- JS whitespace test for the characters that matter here. -/
def isWs (c : Char) : Bool :=
  c = ' ' || c = '\t' || c = '\n' || c = '\r'

/-- Exponent part of a `parseFloat` literal: consumes `e`/`E`, an optional
sign and digits; contributes 0 when no digit follows the `e`
(JS `parseFloat("1e") = 1`). -/
def expPartVal (cs : List Char) : ℤ :=
  match cs with
  | 'e' :: t =>
      (match t with
       | '-' :: u => -(digitsVal (takeDigits u).1 : ℤ)
       | '+' :: u => (digitsVal (takeDigits u).1 : ℤ)
       | u => (digitsVal (takeDigits u).1 : ℤ))
  | 'E' :: t =>
      (match t with
       | '-' :: u => -(digitsVal (takeDigits u).1 : ℤ)
       | '+' :: u => (digitsVal (takeDigits u).1 : ℤ)
       | u => (digitsVal (takeDigits u).1 : ℤ))
  | _ => 0

/-- Scale a rational by an integer power of ten. -/
def scalePow10 (q : ℚ) (e : ℤ) : ℚ :=
  if 0 ≤ e then q * (10 : ℚ) ^ e.toNat else q / (10 : ℚ) ^ (-e).toNat

/-- Model of JS `parseFloat` on a string: skip leading whitespace, read an
optional sign, integer digits, an optional fraction and an optional
exponent; ignore any trailing garbage. `none` models `NaN` (no digit at
all in the mantissa). Infinities are outside the rational model. -/
def parseFloatStr (s : String) : Option ℚ :=
  let cs := s.data.dropWhile isWs
  let (sgn, cs1) : ℚ × List Char :=
    match cs with
    | '-' :: t => (-1, t)
    | '+' :: t => (1, t)
    | _ => (1, cs)
  let (ip, cs2) := takeDigits cs1
  let (fp, cs3) : List Char × List Char :=
    match cs2 with
    | '.' :: t => takeDigits t
    | _ => ([], cs2)
  if ip.isEmpty ∧ fp.isEmpty then none
  else
    let mant : ℚ := (digitsVal ip : ℚ) + (digitsVal fp : ℚ) / (10 : ℚ) ^ fp.length
    some (sgn * scalePow10 mant (expPartVal cs3))

/-- Model of JS `ToNumber` on a string (used by implicit coercions such as
`value * 100`): whitespace-only is 0, otherwise the whole trimmed string
must be a numeric literal; `none` models `NaN`. -/
def toNumberStr (s : String) : Option ℚ :=
  let cs := (s.data.dropWhile isWs).reverse.dropWhile isWs |>.reverse
  if cs.isEmpty then some 0
  else
    let (sgn, cs1) : ℚ × List Char :=
      match cs with
      | '-' :: t => (-1, t)
      | '+' :: t => (1, t)
      | _ => (1, cs)
    let (ip, cs2) := takeDigits cs1
    let (fp, cs3) : List Char × List Char :=
      match cs2 with
      | '.' :: t => takeDigits t
      | _ => ([], cs2)
    if ip.isEmpty ∧ fp.isEmpty then none
    else
      let mant : ℚ := (digitsVal ip : ℚ) + (digitsVal fp : ℚ) / (10 : ℚ) ^ fp.length
      match cs3 with
      | [] => some (sgn * mant)
      | c :: t =>
          if c = 'e' ∨ c = 'E' then
            let (es, t1) : ℤ × List Char :=
              match t with
              | '-' :: u => (-1, u)
              | '+' :: u => (1, u)
              | _ => (1, t)
            let (ds, t2) := takeDigits t1
            if ds.isEmpty ∨ ¬t2.isEmpty then none
            else some (sgn * scalePow10 mant (es * (digitsVal ds : ℤ)))
          else none

/-- JS `ToNumber` on a `JsVal` (`none` models `NaN`). -/
def jsToNumber : JsVal → Option ℚ
  | .null => some 0
  | .undef => none
  | .nan => none
  | .num q => some q
  | .str s => toNumberStr s

/-- JS `parseFloat` on a `JsVal` (`none` models `NaN`): numbers pass
through, strings are parsed, `null`/`undefined`/`NaN` stringify to
non-numeric text and give `NaN`. -/
def jsParseFloat : JsVal → Option ℚ
  | .num q => some q
  | .str s => parseFloatStr s
  | _ => none

/-- `parseFloat(v) || 0`: `NaN` (and 0 itself) collapse to 0. -/
def parseFloatOrZero (v : JsVal) : ℚ :=
  match jsParseFloat v with
  | none => 0
  | some q => q

/-- `⌊q·10^d + 1/2⌋` computed on the numerator/denominator, the rounding
`Number.prototype.toFixed` applies to a non-negative argument. -/
def roundHalfUp (d : ℕ) (q : ℚ) : ℤ :=
  Int.fdiv (2 * q.num * (10 : ℤ) ^ d + (q.den : ℤ)) (2 * (q.den : ℤ))

/-- Left-pad a string with `'0'` to length `d`. -/
def padZeros (d : ℕ) (s : String) : String :=
  String.mk (List.replicate (d - s.length) '0') ++ s

/-- `toFixed d` for a non-negative rational. -/
def toFixedNN (d : ℕ) (q : ℚ) : String :=
  let n : ℕ := (roundHalfUp d q).toNat
  if d = 0 then Nat.repr n
  else Nat.repr (n / 10 ^ d) ++ "." ++ padZeros d (Nat.repr (n % 10 ^ d))

/-- Model of `Number.prototype.toFixed d` on a finite value: format the
absolute value and prepend the sign (so `(-0.004).toFixed 2 = "-0.00"`,
as in JS). -/
def toFixedQ (d : ℕ) (q : ℚ) : String :=
  if q < 0 then "-" ++ toFixedNN d (-q) else toFixedNN d q

/-- Model of `s.replace(/\.?0+$/, '')`: drop the maximal run of trailing
zeros, and the dot just before it when present. A string not ending in
`'0'` is unchanged. -/
def stripZeroSuffix (s : String) : String :=
  let rcs := s.data.reverse
  if (rcs.takeWhile (· = '0')).isEmpty then s
  else
    let rest := rcs.dropWhile (· = '0')
    let rest' := match rest with
      | '.' :: t => t
      | _ => rest
    String.mk rest'.reverse

/-- Model of `s.replace(/\.0$/, '')`. -/
def stripDotZero (s : String) : String :=
  match s.data.reverse with
  | '0' :: '.' :: t => String.mk t.reverse
  | _ => s

/-- `formatNumber` from `src/utils/formatters.js`: 0 renders as `"0"`,
otherwise `value.toFixed(2).replace(/\.?0+$/, '')`. -/
def formatNumber (value : ℚ) : String :=
  if value = 0 then "0"
  else stripZeroSuffix (toFixedQ 2 value)

/-- `convertFromStroops` from `src/utils/formatters.js`: null, undefined
and the empty string give 0; strings go through `parseFloat`; `NaN` gives
0; otherwise divide by 10^7. -/
def convertFromStroops (v : JsVal) : ℚ :=
  if v = .null ∨ v = .undef ∨ v = .str "" then 0
  else
    match jsParseFloatTyped v with
    | none => 0
    | some q => q / 10000000
where
  /-- `typeof amount === 'string' ? parseFloat(amount) : amount`,
  with `none` modelling a `NaN` result. -/
  jsParseFloatTyped : JsVal → Option ℚ
    | .str s => parseFloatStr s
    | .num q => some q
    | _ => none

/-- Split off a leading run of up to three characters (used from the
reversed digit list, so groups are formed from the right). -/
def chunk3 : List Char → List (List Char)
  | a :: b :: c :: d :: rest => [a, b, c] :: chunk3 (d :: rest)
  | rest => [rest]

/-- Model of `parts[0].replace(/\B(?=(\d{3})+(?!\d))/g, ',')` on the shape
the formatters feed it (an optional `'-'` followed by decimal digits):
group the digits in threes from the right, comma-separated. -/
def addCommas (s : String) : String :=
  match s.data with
  | '-' :: t => "-" ++ commaDigits t
  | cs => commaDigits cs
where
  commaDigits (ds : List Char) : String :=
    String.intercalate "," (((chunk3 ds.reverse).map List.reverse).reverse.map String.mk)

/-- Model of JS `String.prototype.split('.')` (keeps empty segments,
yields `[""]` on the empty string). -/
def splitDotAux : List Char → List (List Char)
  | [] => [[]]
  | '.' :: t => [] :: splitDotAux t
  | c :: t =>
      match splitDotAux t with
      | [] => [[c]]
      | g :: gs => (c :: g) :: gs

/-- `formatted.split('.')`. -/
def splitDot (s : String) : List String :=
  (splitDotAux s.data).map String.mk

/-- The comma-insertion tail shared by `formatAmountWithCommasDecimal` and
`formatAmountWithCommas`: split on `'.'`, comma-group the integer part,
re-join only when the decimal part is non-empty. -/
def commaJoin (formatted : String) : String :=
  match splitDot formatted with
  | [] => ""
  | [ip] => addCommas ip
  | ip :: dp :: rest =>
      if dp ≠ "" then String.intercalate "." (addCommas ip :: dp :: rest)
      else addCommas ip

/-- `formatAmountWithCommasDecimal` from `src/utils/formatters.js`. -/
def formatAmountWithCommasDecimal (v : JsVal) : String :=
  if v = .null ∨ v = .undef ∨ v = .str "" then "0"
  else
    match convertFromStroops.jsParseFloatTyped v with
    | none => "0"
    | some q => if q = 0 then "0" else commaJoin (formatNumber q)

/-- `formatAmountWithCommas` from `src/utils/formatters.js`: convert from
stroops, then the same comma formatting. -/
def formatAmountWithCommas (v : JsVal) : String :=
  let actualAmount := convertFromStroops v
  if actualAmount = 0 then "0"
  else commaJoin (formatNumber actualAmount)

/-- `formatCompactNumber` from `src/utils/formatters.js`. The guard
mirrors `value === null || value === undefined || isNaN(value) ||
value === 0` (the `isNaN` call coerces with `ToNumber`; `===` is strict);
`Math.abs` and `value < 0` also coerce. -/
def formatCompactNumber (v : JsVal) : String :=
  if v = .null ∨ v = .undef ∨ (jsToNumber v).isNone ∨ v = .num 0 then "0"
  else
    match jsToNumber v with
    | none => "0"
    | some q =>
      let absValue := |q|
      let sign := if q < 0 then "-" else ""
      if absValue ≥ 1000000000 then
        sign ++ stripDotZero (toFixedQ 1 (absValue / 1000000000)) ++ "B"
      else if absValue ≥ 1000000 then
        sign ++ stripDotZero (toFixedQ 1 (absValue / 1000000)) ++ "M"
      else if absValue ≥ 1000 then
        let divided := absValue / 1000
        if divided.den = 1 then sign ++ toFixedQ 0 divided ++ "K"
        else sign ++ stripDotZero (toFixedQ 1 divided) ++ "K"
      else
        sign ++ formatNumber absValue

/-! ## API client (`src/services/api.js`) -/

/-- `true` on a character-list prefix match. -/
def startsWithChars : List Char → List Char → Bool
  | [], _ => true
  | _ :: _, [] => false
  | a :: as, b :: bs => a = b && startsWithChars as bs

/-- `true` when `ns` occurs contiguously in the character list. -/
def containsSubAux (ns : List Char) : List Char → Bool
  | [] => ns.isEmpty
  | h :: t => startsWithChars ns (h :: t) || containsSubAux ns t

/-- Model of JS `String.prototype.includes`. -/
def containsSub (hay needle : String) : Bool :=
  containsSubAux needle.data hay.data

/-- A caught JS exception: whether it is a `TypeError`, and its message. -/
structure JsError where
  isTypeError : Bool
  message : String
deriving DecidableEq, Repr

/-- The `message`/`error` fields JSON parsing of an error body may expose
(`none` = field absent or non-string; the client only reads these two). -/
structure JsonErrorFields where
  message : Option String
  error : Option String
deriving DecidableEq, Repr

/-- JS truthiness of an optional string field (`undefined`, `null` and
`""` are falsy). -/
def truthyStr : Option String → Bool
  | none => false
  | some s => s ≠ ""

/-- `a || b` on optional string fields. -/
def jsOrStr (a : Option String) (b : String) : String :=
  match a with
  | some s => if s ≠ "" then s else b
  | none => b

/-- An HTTP response the `fetch` promise resolved with. -/
structure HttpResponse where
  ok : Bool
  status : ℕ
  statusText : String
  bodyText : String
deriving DecidableEq, Repr

/-- What a `fetch` call settles to: a response, or rejection with a
transport-level exception (per the Fetch spec a `TypeError`). -/
inductive FetchStep : Type where
  | response : HttpResponse → FetchStep
  | transportFailure : JsError → FetchStep
deriving Repr

/-- The environment: what `fetch` does for a given URL, and what
`JSON.parse` extracts from a given body text (`none` = parse throws). -/
structure NetEnv where
  net : String → FetchStep
  parse : String → Option JsonErrorFields

/-- One issued HTTP request. -/
structure Request where
  url : String
  method : String
deriving DecidableEq, Repr

/-- The configuration error thrown when the API key is unset. -/
def configError : JsError :=
  ⟨false, "VITE_DEFINDEX_API_KEY is not set. Please configure your API key in the environment variables."⟩

/-- The network error the catch block substitutes for transport failures. -/
def networkError : JsError :=
  ⟨false, "Network error: Unable to connect to API. Please check your internet connection and CORS settings."⟩

/-- The non-2xx error message: `errorJson.message || errorJson.error ||
fallback` when the body parses as JSON, else the fallback with the raw
body appended when non-empty. -/
def non2xxMessage (fallback : String) (env : NetEnv) (resp : HttpResponse) : String :=
  match env.parse resp.bodyText with
  | some j => jsOrStr j.message (jsOrStr j.error fallback)
  | none => if resp.bodyText ≠ "" then fallback ++ " - " ++ resp.bodyText else fallback

/-- The catch block of every operation: a `TypeError` whose message
contains `"fetch"` becomes `networkError`; anything else is rethrown. -/
def mapCaughtError (e : JsError) : JsError :=
  if e.isTypeError && containsSub e.message "fetch" then networkError else e

/-- The try/fetch/non-2xx/catch body shared verbatim by `getData`,
`postData`, `getVaultInfo` and `getFactoryAddress`, parameterised by the
URL, method and the fallback error-message prefix. On success the raw
body text stands in for the parsed JSON value. -/
def fetchCore (env : NetEnv) (url method fallback : String) :
    List Request × Except JsError String :=
  let req : Request := ⟨url, method⟩
  match env.net url with
  | .transportFailure e => ([req], .error (mapCaughtError e))
  | .response resp =>
      if resp.ok then ([req], .ok resp.bodyText)
      else
        let msg := non2xxMessage
          (fallback ++ ": " ++ Nat.repr resp.status ++ " " ++ resp.statusText) env resp
        ([req], .error (mapCaughtError ⟨false, msg⟩))

def API_BASE_URL : String := "https://api.defindex.io"

/-- `new URLSearchParams(params).toString()` for the plain key/value pairs
the client passes (no characters needing percent-encoding). -/
def queryString (params : List (String × String)) : String :=
  String.intercalate "&" (params.map fun p => p.1 ++ "=" ++ p.2)

/-- `getData` from `src/services/api.js`, returning the requests issued
alongside the outcome. `apiKey = none` models an unset environment
variable; `some ""` is likewise falsy in the `!API_KEY` guard. -/
def getData (apiKey : Option String) (env : NetEnv)
    (endpoint vaultAddress : String) (params : List (String × String)) :
    List Request × Except JsError String :=
  if ¬truthyStr apiKey then ([], .error configError)
  else
    let url :=
      if params.length > 0 then
        API_BASE_URL ++ "/vault/" ++ vaultAddress ++ "/" ++ endpoint ++ "?" ++ queryString params
      else
        API_BASE_URL ++ "/vault/" ++ vaultAddress ++ "/" ++ endpoint
    fetchCore env url "GET" ("Failed to fetch " ++ endpoint)

/-- `getVaultInfo` from `src/services/api.js` (its own inline fetch with
the `"Failed to fetch vault info"` fallback). -/
def getVaultInfo (apiKey : Option String) (env : NetEnv)
    (vaultAddress network : String) : List Request × Except JsError String :=
  if ¬truthyStr apiKey then ([], .error configError)
  else
    fetchCore env (API_BASE_URL ++ "/vault/" ++ vaultAddress ++ "?network=" ++ network)
      "GET" "Failed to fetch vault info"

/-- `getVaultAPY` from `src/services/api.js`. -/
def getVaultAPY (apiKey : Option String) (env : NetEnv)
    (vaultAddress network : String) : List Request × Except JsError String :=
  getData apiKey env "apy" vaultAddress [("network", network)]

/-- `getVaultHistory` from `src/services/api.js`: optional start/end dates
join the query only when truthy. -/
def getVaultHistory (apiKey : Option String) (env : NetEnv)
    (vaultAddress network period interval : String)
    (startDate endDate : Option String) : List Request × Except JsError String :=
  let params := [("network", network), ("period", period), ("interval", interval)]
  let params := if truthyStr startDate then params ++ [("startDate", startDate.getD "")] else params
  let params := if truthyStr endDate then params ++ [("endDate", endDate.getD "")] else params
  getData apiKey env "history" vaultAddress params

/-- `getVaultReport` from `src/services/api.js`. -/
def getVaultReport (apiKey : Option String) (env : NetEnv)
    (vaultAddress network : String) : List Request × Except JsError String :=
  getData apiKey env "report" vaultAddress [("network", network)]

/-- `getVaultBalance` from `src/services/api.js`. -/
def getVaultBalance (apiKey : Option String) (env : NetEnv)
    (vaultAddress userAddress network : String) : List Request × Except JsError String :=
  getData apiKey env "balance" vaultAddress [("from", userAddress), ("network", network)]

/-- `getFactoryAddress` from `src/services/api.js` (its own inline fetch
with the `"Failed to fetch factory address"` fallback). -/
def getFactoryAddress (apiKey : Option String) (env : NetEnv)
    (network : String) : List Request × Except JsError String :=
  if ¬truthyStr apiKey then ([], .error configError)
  else
    fetchCore env (API_BASE_URL ++ "/factory/address?network=" ++ network)
      "GET" "Failed to fetch factory address"

/-! ## Dashboard state transitions (`src/components/VaultDashboard.jsx`) -/

/-- One settled promise, as `Promise.allSettled` reports it. -/
inductive Settled (α : Type) : Type where
  | fulfilled : α → Settled α
  | rejected : (reason : String) → Settled α
deriving DecidableEq, Repr

/-- The per-endpoint error slots of the dashboard's `vaultData` state. -/
structure FetchErrors where
  info : Option String
  apy : Option String
  history : Option String
deriving DecidableEq, Repr

/-- The dashboard's `vaultData` state. -/
structure VaultDataState (α : Type) : Type where
  info : Option α
  apy : Option α
  history : Option α
  errors : FetchErrors
deriving DecidableEq, Repr

/-- The `setVaultData` object literal `fetchVaultData` builds from the
three settled outcomes (lines 47–56 of `VaultDashboard.jsx`). -/
def combineVaultData {α : Type} (info apy history : Settled α) : VaultDataState α :=
  { info := match info with | .fulfilled v => some v | .rejected _ => none
    apy := match apy with | .fulfilled v => some v | .rejected _ => none
    history := match history with | .fulfilled v => some v | .rejected _ => none
    errors :=
      { info := match info with | .rejected m => some m | _ => none
        apy := match apy with | .rejected m => some m | _ => none
        history := match history with | .rejected m => some m | _ => none } }

/-- The state update `handlePeriodChange` and `handleIntervalChange` both
apply once the re-issued `getVaultHistory` call settles: on success
replace `history` and clear its error; on failure spread the previous
state and set only `errors.history`. -/
def handleHistoryRefetch {α : Type} (prev : VaultDataState α) (outcome : Settled α) :
    VaultDataState α :=
  match outcome with
  | .fulfilled h => { prev with history := some h, errors := { prev.errors with history := none } }
  | .rejected m => { prev with errors := { prev.errors with history := some m } }

/-- One record of `history.data` as `prepareChartData` reads it; fields
are dynamic values straight from the JSON. -/
structure HistoryRecord where
  timestamp : JsVal
  vaultPPS : JsVal
  totalSupply : JsVal
  totalManagedFunds : JsVal
  periodDeposits : JsVal
  periodWithdrawals : JsVal
  netDeposits : JsVal
  ppsChangeFromPrevious : JsVal
deriving DecidableEq, Repr

/-- One chart point (the locale-formatted `date` label is presentation
only and outside the numeric model; every other field is kept). -/
structure ChartPoint where
  timestamp : JsVal
  vaultPPS : ℚ
  totalSupply : ℚ
  totalManagedFunds : ℚ
  deposits : ℚ
  withdrawals : ℚ
  netDeposits : ℚ
  ppsChange : JsVal
deriving DecidableEq, Repr

/-- `record.ppsChangeFromPrevious !== null ? (record.ppsChangeFromPrevious
* 100) : null` — the strict `!==` lets `undefined` through, and JS `*`
coerces with `ToNumber`, so `undefined * 100` is `NaN`. -/
def ppsChangeOf (v : JsVal) : JsVal :=
  if v = .null then .null
  else
    match jsToNumber v with
    | some q => .num (q * 100)
    | none => .nan

/-- The per-record map body of `prepareChartData`. -/
def chartPointOf (r : HistoryRecord) : ChartPoint :=
  { timestamp := r.timestamp
    vaultPPS := parseFloatOrZero r.vaultPPS
    totalSupply := parseFloatOrZero r.totalSupply
    totalManagedFunds := parseFloatOrZero r.totalManagedFunds
    deposits := parseFloatOrZero r.periodDeposits
    withdrawals := parseFloatOrZero r.periodWithdrawals
    netDeposits := parseFloatOrZero r.netDeposits
    ppsChange := ppsChangeOf r.ppsChangeFromPrevious }

/-- The `vaultData?.history?.data` field as the guard of
`prepareChartData` distinguishes it: falsy/absent, present but not an
array, or an actual array of records. -/
inductive HistoryField : Type where
  | missing : HistoryField
  | notArray : HistoryField
  | records : List HistoryRecord → HistoryField
deriving Repr

/-- `prepareChartData` from `VaultDashboard.jsx`: empty when the data
field is absent or not an array, else the in-order map. -/
def prepareChartData : HistoryField → List ChartPoint
  | .missing => []
  | .notArray => []
  | .records rs => rs.map chartPointOf

/-! ## Concrete environments and inputs used by the witnesses -/

/-- An environment whose fetch always succeeds with a trivial JSON body. -/
def okEnv : NetEnv :=
  ⟨fun _ => .response ⟨true, 200, "OK", "null"⟩, fun _ => none⟩

/-- The error body `{"message":"vault not found"}`. -/
def vaultNotFoundBody : String :=
  "\x7b\"message\":\"vault not found\"\x7d"

/-- An environment whose fetch always yields a 404 carrying the
`vault not found` JSON envelope, with `JSON.parse` extracting it. -/
def notFoundEnv : NetEnv :=
  ⟨fun _ => .response ⟨false, 404, "Not Found", vaultNotFoundBody⟩,
   fun s => if s = vaultNotFoundBody then some ⟨some "vault not found", none⟩ else none⟩

/-- The 404 response `notFoundEnv` serves. -/
def notFoundResp : HttpResponse :=
  ⟨false, 404, "Not Found", vaultNotFoundBody⟩

/-- A transport failure whose `TypeError` message does not mention
`fetch` (the message Safari produces). -/
def safariEnv : NetEnv :=
  ⟨fun _ => .transportFailure ⟨true, "Load failed"⟩, fun _ => none⟩

/-- A transport failure with the Chrome-style `Failed to fetch` message. -/
def fetchFailEnv : NetEnv :=
  ⟨fun _ => .transportFailure ⟨true, "Failed to fetch"⟩, fun _ => none⟩

/-- A history record whose `ppsChangeFromPrevious` field is absent
(`undefined`). -/
def undefPpsRecord : HistoryRecord :=
  ⟨.num 0, .str "1.05", .num 100, .num 100, .num 5, .num 2, .num 3, .undef⟩

/-- The generated fallback message of `getData`'s non-2xx branch. -/
def getDataFallback (endpoint : String) (resp : HttpResponse) : String :=
  "Failed to fetch " ++ endpoint ++ ": " ++ Nat.repr resp.status ++ " " ++ resp.statusText

/-- Every path through the shared fetch body issues exactly the one
request it built, whatever the network does. -/
theorem fetchCore_requests (env : NetEnv) (url method fallback : String) :
    (fetchCore env url method fallback).1 = [⟨url, method⟩] := by
  unfold fetchCore
  cases env.net url with
  | transportFailure e => rfl
  | response resp =>
      by_cases h : resp.ok = true
      · simp [h]
      · simp [h]

section
attribute [local semireducible] Rat.mul Rat.add Rat.inv Rat.sub

/-- C5: `convertFromStroops` maps a finite number `q` (given directly or
as a string `parseFloat` reads back as `q`) to `q / 10_000_000`, and
maps `null`, `undefined`, the empty string, `NaN` and unparsable strings
to `0`; being a total Lean function it never throws. -/
theorem convertFromStroops_spec :
    (∀ q : ℚ, convertFromStroops (.num q) = q / 10000000) ∧
    (∀ s q, parseFloatStr s = some q → convertFromStroops (.str s) = q / 10000000) ∧
    convertFromStroops .null = 0 ∧
    convertFromStroops .undef = 0 ∧
    convertFromStroops (.str "") = 0 ∧
    convertFromStroops .nan = 0 ∧
    (∀ s, parseFloatStr s = none → convertFromStroops (.str s) = 0) := by
  refine ⟨fun q => ?_, fun s q h => ?_, rfl, rfl, rfl, rfl, fun s h => ?_⟩
  · simp [convertFromStroops, convertFromStroops.jsParseFloatTyped]
  · by_cases hs : s = ""
    · subst hs
      rw [show parseFloatStr "" = none from rfl] at h
      cases h
    · simp [convertFromStroops, convertFromStroops.jsParseFloatTyped, hs, h]
  · by_cases hs : s = ""
    · subst hs; rfl
    · simp [convertFromStroops, convertFromStroops.jsParseFloatTyped, hs, h]

/-- Witness for C5 at the concrete numeric string `"3.5"`. -/
theorem convertFromStroops_witness :
    parseFloatStr "3.5" = some (7 / 2) ∧
    convertFromStroops (.str "3.5") = (7 / 2) / 10000000 := by
  have h := convertFromStroops_spec
  have hp : parseFloatStr "3.5" = some (7 / 2) := by decide
  exact ⟨hp, h.2.1 "3.5" (7 / 2) hp⟩

/-- C3: the settle-all combination of the three initial fetches records
each outcome independently — a fulfilled fetch's value is exposed and its
error slot is `null` whatever the other two did, and a rejected fetch's
value is `null` with its reason in its own error slot only. -/
theorem combineVaultData_spec {α : Type} (i a h : Settled α) :
    (∀ v, i = .fulfilled v →
      (combineVaultData i a h).info = some v ∧ (combineVaultData i a h).errors.info = none) ∧
    (∀ m, i = .rejected m →
      (combineVaultData i a h).info = none ∧ (combineVaultData i a h).errors.info = some m) ∧
    (∀ v, a = .fulfilled v →
      (combineVaultData i a h).apy = some v ∧ (combineVaultData i a h).errors.apy = none) ∧
    (∀ m, a = .rejected m →
      (combineVaultData i a h).apy = none ∧ (combineVaultData i a h).errors.apy = some m) ∧
    (∀ v, h = .fulfilled v →
      (combineVaultData i a h).history = some v ∧ (combineVaultData i a h).errors.history = none) ∧
    (∀ m, h = .rejected m →
      (combineVaultData i a h).history = none ∧ (combineVaultData i a h).errors.history = some m) := by
  cases i <;> cases a <;> cases h <;> simp [combineVaultData]

/-- Witness for C3: info and history fulfilled, APY rejected — both
values exposed, the error non-null only under the `apy` key. -/
theorem combineVaultData_witness :
    (combineVaultData (.fulfilled (1 : ℚ)) (.rejected "apy down") (.fulfilled 2)).info = some 1 ∧
    (combineVaultData (.fulfilled (1 : ℚ)) (.rejected "apy down") (.fulfilled 2)).history = some 2 ∧
    (combineVaultData (.fulfilled (1 : ℚ)) (.rejected "apy down") (.fulfilled 2)).apy = none ∧
    (combineVaultData (.fulfilled (1 : ℚ)) (.rejected "apy down") (.fulfilled 2)).errors.apy = some "apy down" ∧
    (combineVaultData (.fulfilled (1 : ℚ)) (.rejected "apy down") (.fulfilled 2)).errors.info = none ∧
    (combineVaultData (.fulfilled (1 : ℚ)) (.rejected "apy down") (.fulfilled 2)).errors.history = none := by
  obtain ⟨c1, _, _, c4, c5, _⟩ :=
    combineVaultData_spec (.fulfilled (1 : ℚ)) (.rejected "apy down") (.fulfilled 2)
  exact ⟨(c1 1 rfl).1, (c5 2 rfl).1, (c4 "apy down" rfl).1, (c4 "apy down" rfl).2,
    (c1 1 rfl).2, (c5 2 rfl).2⟩

/-- C8: when a period- or interval-change history re-fetch fails, the new
state keeps the displayed history and every other field, changing only
the attached history error message. -/
theorem handleHistoryRefetch_failure {α : Type} (prev : VaultDataState α) (m : String) :
    (handleHistoryRefetch prev (.rejected m)).history = prev.history ∧
    (handleHistoryRefetch prev (.rejected m)).info = prev.info ∧
    (handleHistoryRefetch prev (.rejected m)).apy = prev.apy ∧
    (handleHistoryRefetch prev (.rejected m)).errors.info = prev.errors.info ∧
    (handleHistoryRefetch prev (.rejected m)).errors.apy = prev.errors.apy ∧
    (handleHistoryRefetch prev (.rejected m)).errors.history = some m := by
  simp [handleHistoryRefetch]

/-- C4: `prepareChartData` yields the empty list when the data field is
absent or not an array, and otherwise exactly one point per record in
input order, each point carrying `parseFloat`-or-zero of the six numeric
fields and the null-guarded scaled PPS change. -/
theorem prepareChartData_spec :
    prepareChartData .missing = [] ∧
    prepareChartData .notArray = [] ∧
    (∀ rs, (prepareChartData (.records rs)).length = rs.length) ∧
    (∀ rs (i : ℕ), (prepareChartData (.records rs))[i]? = (rs[i]?).map chartPointOf) ∧
    (∀ r, (chartPointOf r).vaultPPS = parseFloatOrZero r.vaultPPS ∧
      (chartPointOf r).totalSupply = parseFloatOrZero r.totalSupply ∧
      (chartPointOf r).totalManagedFunds = parseFloatOrZero r.totalManagedFunds ∧
      (chartPointOf r).deposits = parseFloatOrZero r.periodDeposits ∧
      (chartPointOf r).withdrawals = parseFloatOrZero r.periodWithdrawals ∧
      (chartPointOf r).netDeposits = parseFloatOrZero r.netDeposits) ∧
    (∀ r, r.ppsChangeFromPrevious = .null → (chartPointOf r).ppsChange = .null) ∧
    (∀ r q, r.ppsChangeFromPrevious = .num q → (chartPointOf r).ppsChange = .num (q * 100)) := by
  refine ⟨rfl, rfl, fun rs => ?_, fun rs i => ?_, fun r => ?_, fun r hr => ?_, fun r q hr => ?_⟩
  · simp [prepareChartData]
  · simp [prepareChartData]
  · exact ⟨rfl, rfl, rfl, rfl, rfl, rfl⟩
  · rw [show (chartPointOf r).ppsChange = ppsChangeOf r.ppsChangeFromPrevious from rfl, hr]
    rfl
  · rw [show (chartPointOf r).ppsChange = ppsChangeOf r.ppsChangeFromPrevious from rfl, hr]
    simp [ppsChangeOf, jsToNumber]

/-- Witness for C4 on a two-record history with a `null` PPS change in
the first record and a numeric one in the second. -/
theorem prepareChartData_witness :
    (prepareChartData (.records [⟨.num 0, .str "1.5", .num 2, .num 3, .num 4, .num 5, .num 6, .null⟩,
      ⟨.num 1, .num 2, .num 3, .num 4, .num 5, .num 6, .num 7, .num (1 / 100)⟩])).length = 2 ∧
    (chartPointOf ⟨.num 0, .str "1.5", .num 2, .num 3, .num 4, .num 5, .num 6, .null⟩).ppsChange = .null ∧
    (chartPointOf ⟨.num 1, .num 2, .num 3, .num 4, .num 5, .num 6, .num 7, .num (1 / 100)⟩).ppsChange
      = .num (1 / 100 * 100) := by
  have h := prepareChartData_spec
  exact ⟨h.2.2.1 _, h.2.2.2.2.2.1 _ rfl, h.2.2.2.2.2.2 _ (1 / 100) rfl⟩

/-- C10: a record whose `ppsChangeFromPrevious` is `undefined` (absent)
slips past the strict `!== null` guard, so its chart point carries
`undefined * 100 = NaN` — not `null` and not `0`; only a strict `null`
maps to `null`. -/
theorem ppsChange_undefined_nan :
    ppsChangeOf .undef = .nan ∧
    JsVal.nan ≠ JsVal.null ∧
    JsVal.nan ≠ JsVal.num 0 ∧
    (∀ v, ppsChangeOf v = .null ↔ v = .null) ∧
    (∀ r, r.ppsChangeFromPrevious = .undef → (chartPointOf r).ppsChange = .nan) ∧
    (∀ r, prepareChartData (.records [r]) = [chartPointOf r]) := by
  refine ⟨rfl, by decide, by decide, fun v => ?_, fun r hr => ?_, fun r => rfl⟩
  · cases v with
    | str s =>
        cases h : toNumberStr s <;> simp [ppsChangeOf, jsToNumber, h]
    | _ => simp [ppsChangeOf, jsToNumber]
  · rw [show (chartPointOf r).ppsChange = ppsChangeOf r.ppsChangeFromPrevious from rfl, hr]
    rfl

/-- Witness for C10 at a concrete record with the field absent. -/
theorem ppsChange_undefined_nan_witness :
    (chartPointOf undefPpsRecord).ppsChange = .nan := by
  have h := ppsChange_undefined_nan
  exact h.2.2.2.2.1 undefPpsRecord rfl

end

/-- `a || b` keeps `a` when it is a non-empty (truthy) string. -/
theorem jsOrStr_of_truthy {m : String} (h : m ≠ "") (b : String) :
    jsOrStr (some m) b = m := by
  simp [jsOrStr, h]

/-- `a || b` falls through to `b` when `a` is falsy. -/
theorem jsOrStr_of_falsy {a : Option String} (h : truthyStr a = false) (b : String) :
    jsOrStr a b = b := by
  cases a with
  | none => rfl
  | some s =>
      simp only [truthyStr, decide_eq_false_iff_not, not_not] at h
      simp [jsOrStr, h]

/-- A non-2xx response makes the shared fetch body fail with the
normalized message (the thrown `Error` is not a `TypeError`, so the
catch block rethrows it unchanged). -/
theorem fetchCore_non2xx (env : NetEnv) (url method fallback : String)
    (resp : HttpResponse) (hnet : env.net url = .response resp) (hok : resp.ok = false) :
    (fetchCore env url method fallback).2 =
      .error ⟨false, non2xxMessage
        (fallback ++ ": " ++ Nat.repr resp.status ++ " " ++ resp.statusText) env resp⟩ := by
  unfold fetchCore
  rw [hnet]
  simp [hok, mapCaughtError]

/-- A transport-level rejection makes the shared fetch body fail with
the caught exception as the catch block maps it. -/
theorem fetchCore_transport (env : NetEnv) (url method fallback : String)
    (e : JsError) (hnet : env.net url = .transportFailure e) :
    (fetchCore env url method fallback).2 = .error (mapCaughtError e) := by
  unfold fetchCore
  rw [hnet]

section
attribute [local semireducible] Rat.mul Rat.add Rat.inv Rat.sub

/-- C1: on every non-2xx response `getData` signals failure (never a
partial success); the message is the truthy `message` field of the
JSON-parsed body, else the truthy `error` field, else the fallback
`"Failed to fetch <endpoint>: <status> <statusText>"`, with
`" - <raw body>"` appended when the body does not parse as JSON and is
non-empty; in particular a body carrying `message = "vault not found"`
yields exactly that text. -/
theorem getData_non2xx_spec (apiKey : Option String) (env : NetEnv)
    (endpoint vaultAddress : String) (params : List (String × String))
    (resp : HttpResponse)
    (hkey : truthyStr apiKey = true)
    (hnet : ∀ u, env.net u = .response resp)
    (hok : resp.ok = false) :
    (getData apiKey env endpoint vaultAddress params).2 =
      .error ⟨false, non2xxMessage (getDataFallback endpoint resp) env resp⟩ ∧
    (∀ j, env.parse resp.bodyText = some j →
      (∀ m, j.message = some m → m ≠ "" →
        (getData apiKey env endpoint vaultAddress params).2 = .error ⟨false, m⟩) ∧
      (truthyStr j.message = false → ∀ m, j.error = some m → m ≠ "" →
        (getData apiKey env endpoint vaultAddress params).2 = .error ⟨false, m⟩) ∧
      (truthyStr j.message = false → truthyStr j.error = false →
        (getData apiKey env endpoint vaultAddress params).2 =
          .error ⟨false, getDataFallback endpoint resp⟩)) ∧
    (env.parse resp.bodyText = none → resp.bodyText ≠ "" →
      (getData apiKey env endpoint vaultAddress params).2 =
        .error ⟨false, getDataFallback endpoint resp ++ " - " ++ resp.bodyText⟩) ∧
    (env.parse resp.bodyText = none → resp.bodyText = "" →
      (getData apiKey env endpoint vaultAddress params).2 =
        .error ⟨false, getDataFallback endpoint resp⟩) ∧
    (∀ e, env.parse resp.bodyText = some ⟨some "vault not found", e⟩ →
      (getData apiKey env endpoint vaultAddress params).2 =
        .error ⟨false, "vault not found"⟩) := by
  have hmain : (getData apiKey env endpoint vaultAddress params).2 =
      .error ⟨false, non2xxMessage (getDataFallback endpoint resp) env resp⟩ := by
    unfold getData
    rw [if_neg (by simp [hkey])]
    exact fetchCore_non2xx env _ _ _ resp (hnet _) hok
  refine ⟨hmain, fun j hj => ⟨fun m hm hne => ?_, fun hfm m hm hne => ?_, fun hfm hfe => ?_⟩,
    fun hp hb => ?_, fun hp hb => ?_, fun e he => ?_⟩
  · rw [hmain]
    simp [non2xxMessage, hj, hm, jsOrStr_of_truthy hne]
  · rw [hmain]
    simp [non2xxMessage, hj, hm, jsOrStr_of_falsy hfm, jsOrStr_of_truthy hne]
  · rw [hmain]
    simp [non2xxMessage, hj, jsOrStr_of_falsy hfm, jsOrStr_of_falsy hfe]
  · rw [hmain]
    simp [non2xxMessage, hp, hb]
  · rw [hb] at hp
    rw [hmain]
    simp [non2xxMessage, hp, hb]
  · rw [hmain]
    simp [non2xxMessage, he, jsOrStr_of_truthy (show "vault not found" ≠ "" by decide)]

/-- Witness for C1: a 404 whose body is `{"message":"vault not found"}`
produces exactly the error text `"vault not found"`. -/
theorem getData_non2xx_witness :
    (getData (some "key") notFoundEnv "balance" "V1" []).2 =
      .error ⟨false, "vault not found"⟩ := by
  have h := getData_non2xx_spec (some "key") notFoundEnv "balance" "V1" []
    notFoundResp (by decide) (fun u => rfl) rfl
  exact h.2.2.2.2 none (by decide)

/-- C2: with the bearer credential absent (unset or empty) every one of
the six operations fails with the configuration error and issues zero
HTTP requests; with it present each issues exactly one request, whatever
the network then does (no retries). -/
theorem apiOps_credential_guard (apiKey : Option String) (env : NetEnv)
    (vaultAddress userAddress network period interval : String)
    (startDate endDate : Option String) :
    (truthyStr apiKey = false →
      getVaultInfo apiKey env vaultAddress network = ([], .error configError) ∧
      getVaultAPY apiKey env vaultAddress network = ([], .error configError) ∧
      getVaultHistory apiKey env vaultAddress network period interval startDate endDate
        = ([], .error configError) ∧
      getVaultReport apiKey env vaultAddress network = ([], .error configError) ∧
      getVaultBalance apiKey env vaultAddress userAddress network = ([], .error configError) ∧
      getFactoryAddress apiKey env network = ([], .error configError)) ∧
    (truthyStr apiKey = true →
      (getVaultInfo apiKey env vaultAddress network).1.length = 1 ∧
      (getVaultAPY apiKey env vaultAddress network).1.length = 1 ∧
      (getVaultHistory apiKey env vaultAddress network period interval
        startDate endDate).1.length = 1 ∧
      (getVaultReport apiKey env vaultAddress network).1.length = 1 ∧
      (getVaultBalance apiKey env vaultAddress userAddress network).1.length = 1 ∧
      (getFactoryAddress apiKey env network).1.length = 1) := by
  constructor
  · intro hk
    simp [getVaultInfo, getVaultAPY, getVaultHistory, getVaultReport, getVaultBalance,
      getFactoryAddress, getData, hk]
  · intro hk
    simp [getVaultInfo, getVaultAPY, getVaultHistory, getVaultReport, getVaultBalance,
      getFactoryAddress, getData, hk, fetchCore_requests]

/-- Witness for C2: an unset key yields the configuration error with no
request; a set key yields exactly one request. -/
theorem apiOps_credential_guard_witness :
    getVaultAPY none okEnv "V1" "mainnet" = ([], .error configError) ∧
    (getVaultAPY (some "key") okEnv "V1" "mainnet").1.length = 1 := by
  have h0 := apiOps_credential_guard none okEnv "V1" "U1" "mainnet" "30d" "daily" none none
  have h1 := apiOps_credential_guard (some "key") okEnv "V1" "U1" "mainnet" "30d" "daily" none none
  exact ⟨(h0.1 (by decide)).2.1, (h1.2 (by decide)).2.1⟩

/-- C9 counterexample: a transport-level failure whose `TypeError`
message is `"Load failed"` (Safari's wording, which does not contain
`"fetch"`) is propagated raw by `getData`, not replaced by the distinct
network-error message — refuting "never propagates the raw transport
exception". -/
theorem getData_transport_raw_counterexample :
    (getData (some "key") safariEnv "apy" "V1" []).2 =
      .error ⟨true, "Load failed"⟩ ∧
    JsError.mk true "Load failed" ≠ networkError ∧
    containsSub "Load failed" "fetch" = false := by
  exact ⟨rfl, by decide, by decide⟩

/-- C9 (amended): on a transport-level rejection every operation throws
the caught exception through `mapCaughtError`: a `TypeError` whose
message contains `"fetch"` becomes the distinct connectivity/CORS
network error, and any other exception propagates unchanged. -/
theorem getData_transport_spec (apiKey : Option String) (env : NetEnv)
    (endpoint vaultAddress network : String) (params : List (String × String))
    (e : JsError)
    (hkey : truthyStr apiKey = true)
    (hnet : ∀ u, env.net u = .transportFailure e) :
    (getData apiKey env endpoint vaultAddress params).2 = .error (mapCaughtError e) ∧
    (getVaultInfo apiKey env vaultAddress network).2 = .error (mapCaughtError e) ∧
    (getFactoryAddress apiKey env network).2 = .error (mapCaughtError e) ∧
    (e.isTypeError = true → containsSub e.message "fetch" = true →
      mapCaughtError e = networkError) ∧
    ((e.isTypeError && containsSub e.message "fetch") = false → mapCaughtError e = e) := by
  refine ⟨?_, ?_, ?_, fun h1 h2 => ?_, fun h => ?_⟩
  · unfold getData
    rw [if_neg (by simp [hkey])]
    exact fetchCore_transport env _ _ _ e (hnet _)
  · unfold getVaultInfo
    rw [if_neg (by simp [hkey])]
    exact fetchCore_transport env _ _ _ e (hnet _)
  · unfold getFactoryAddress
    rw [if_neg (by simp [hkey])]
    exact fetchCore_transport env _ _ _ e (hnet _)
  · simp [mapCaughtError, h1, h2]
  · simp [mapCaughtError, h]

/-- Witness for the amended C9: the Chrome-style `"Failed to fetch"`
TypeError is replaced by the network error. -/
theorem getData_transport_witness :
    (getData (some "key") fetchFailEnv "apy" "V1" []).2 = .error networkError := by
  have h := getData_transport_spec (some "key") fetchFailEnv "apy" "V1" "mainnet" []
    ⟨true, "Failed to fetch"⟩ (by decide) (fun u => rfl)
  rw [h.1, h.2.2.2.1 rfl (by decide)]

end

/-- Evaluation of `formatCompactNumber` on a non-zero finite number,
with the sign prefix factored out of the four magnitude branches. -/
theorem formatCompactNumber_num {q : ℚ} (hq : q ≠ 0) :
    formatCompactNumber (.num q) =
      (if q < 0 then "-" else "") ++
      (if |q| ≥ 1000000000 then stripDotZero (toFixedQ 1 (|q| / 1000000000)) ++ "B"
       else if |q| ≥ 1000000 then stripDotZero (toFixedQ 1 (|q| / 1000000)) ++ "M"
       else if |q| ≥ 1000 then
         (if (|q| / 1000).den = 1 then toFixedQ 0 (|q| / 1000)
          else stripDotZero (toFixedQ 1 (|q| / 1000))) ++ "K"
       else formatNumber |q|) := by
  unfold formatCompactNumber
  rw [if_neg (by simp [jsToNumber, hq])]
  simp only [jsToNumber]
  split_ifs <;> simp [String.append_assoc]

section
attribute [local semireducible] Rat.mul Rat.add Rat.inv Rat.sub

/-- C6: `formatCompactNumber` renders the spec's four examples as given,
maps `0`, `NaN`, `null` and `undefined` to `"0"`, preserves the sign of
negative inputs, and on positive magnitudes applies the B / M / K /
plain-decimal rules at the 1e9 / 1e6 / 1e3 thresholds (one decimal with
a trailing `.0` stripped; K as a whole number when the quotient by 1000
is an integer). -/
theorem formatCompactNumber_spec :
    formatCompactNumber (.num 1500) = "1.5K" ∧
    formatCompactNumber (.num 1000) = "1K" ∧
    formatCompactNumber (.num 2500000) = "2.5M" ∧
    formatCompactNumber (.num (-2000)) = "-2K" ∧
    formatCompactNumber (.num 0) = "0" ∧
    formatCompactNumber .nan = "0" ∧
    formatCompactNumber .null = "0" ∧
    formatCompactNumber .undef = "0" ∧
    (∀ q : ℚ, 0 < q → formatCompactNumber (.num (-q)) = "-" ++ formatCompactNumber (.num q)) ∧
    (∀ q : ℚ, (1000000000 : ℚ) ≤ q →
      formatCompactNumber (.num q) = stripDotZero (toFixedQ 1 (q / 1000000000)) ++ "B") ∧
    (∀ q : ℚ, (1000000 : ℚ) ≤ q → q < 1000000000 →
      formatCompactNumber (.num q) = stripDotZero (toFixedQ 1 (q / 1000000)) ++ "M") ∧
    (∀ q : ℚ, (1000 : ℚ) ≤ q → q < 1000000 →
      formatCompactNumber (.num q) =
        (if (q / 1000).den = 1 then toFixedQ 0 (q / 1000)
         else stripDotZero (toFixedQ 1 (q / 1000))) ++ "K") ∧
    (∀ q : ℚ, 0 < q → q < 1000 → formatCompactNumber (.num q) = formatNumber q) := by
  refine ⟨by decide, by decide, by decide, by decide, rfl, rfl, rfl, rfl,
    fun q hq => ?_, fun q h9 => ?_, fun q h6 h9 => ?_, fun q h3 h6 => ?_, fun q h0 h3 => ?_⟩
  · rw [formatCompactNumber_num (neg_ne_zero.mpr hq.ne'), formatCompactNumber_num hq.ne',
      abs_neg, abs_of_pos hq, if_pos (neg_neg_of_pos hq), if_neg (not_lt.mpr hq.le)]
    rfl
  · have h0 : (0 : ℚ) < q := lt_of_lt_of_le (by norm_num) h9
    rw [formatCompactNumber_num h0.ne', abs_of_pos h0, if_neg (not_lt.mpr h0.le),
      if_pos h9]
    rfl
  · have h0 : (0 : ℚ) < q := lt_of_lt_of_le (by norm_num) h6
    rw [formatCompactNumber_num h0.ne', abs_of_pos h0, if_neg (not_lt.mpr h0.le),
      if_neg (not_le.mpr h9), if_pos h6]
    rfl
  · have h0 : (0 : ℚ) < q := lt_of_lt_of_le (by norm_num) h3
    rw [formatCompactNumber_num h0.ne', abs_of_pos h0, if_neg (not_lt.mpr h0.le),
      if_neg (not_le.mpr (lt_of_lt_of_le h6 (by norm_num))), if_neg (not_le.mpr h6),
      if_pos h3]
    rfl
  · rw [formatCompactNumber_num h0.ne', abs_of_pos h0, if_neg (not_lt.mpr h0.le),
      if_neg (not_le.mpr (lt_of_lt_of_le h3 (by norm_num))),
      if_neg (not_le.mpr (lt_of_lt_of_le h3 (by norm_num))), if_neg (not_le.mpr h3)]
    rfl

/-- Witness for C6: sign preservation applied at 1500. -/
theorem formatCompactNumber_witness :
    formatCompactNumber (.num (-1500)) = "-" ++ formatCompactNumber (.num 1500) := by
  have h := formatCompactNumber_spec
  exact h.2.2.2.2.2.2.2.2.1 1500 (by norm_num)

/-- C7: `formatNumber` renders with at most two fractional digits and
trailing zeros stripped (`12.50` → `"12.5"`, `12.00` → `"12"`, `0` →
`"0"`), and `formatAmountWithCommasDecimal` applies `formatNumber` and
then inserts thousands separators into the integer portion, keeping the
decimal portion only when non-empty
(`1234567.5` → `"1,234,567.5"`, `0` → `"0"`). -/
theorem formatters_decimal_spec :
    formatNumber (25 / 2) = "12.5" ∧
    formatNumber 12 = "12" ∧
    formatNumber 0 = "0" ∧
    (∀ q : ℚ, q ≠ 0 → formatNumber q = stripZeroSuffix (toFixedQ 2 q)) ∧
    (∀ q : ℚ, q ≠ 0 → formatAmountWithCommasDecimal (.num q) = commaJoin (formatNumber q)) ∧
    formatAmountWithCommasDecimal (.num (2469135 / 2)) = "1,234,567.5" ∧
    formatAmountWithCommasDecimal (.num 0) = "0" := by
  refine ⟨by decide, by decide, rfl, fun q hq => ?_, fun q hq => ?_, by decide, by decide⟩
  · simp [formatNumber, hq]
  · simp [formatAmountWithCommasDecimal, convertFromStroops.jsParseFloatTyped, hq]

/-- Witness for C7: the comma step applied at the non-zero input 7. -/
theorem formatters_decimal_witness :
    formatAmountWithCommasDecimal (.num 7) = commaJoin (formatNumber 7) := by
  have h := formatters_decimal_spec
  exact h.2.2.2.2.1 7 (by norm_num)

end

end Dashboard
